import Mathlib

/-!
# Verification of the AAS core and dashboard analytics

A shallow embedding of `src/aas/aas_core.py` and
`src/dashboard/aas_integration.py`.

Modelling conventions:

* Python `datetime` values are modelled as abstract ticks (`Nat`); the clock
  is passed explicitly (`now`) wherever the source calls `datetime.now()`.
  `datetime.isoformat` is modelled by `isoformat`, an injective rendering of
  ticks into a decimal string, matching the one property persistence relies
  on (ISO text parses back to an equal `datetime`).
* Python floats are modelled as rationals (`ℚ`).  All concrete float
  literals appearing in the source and in the analysed inputs (94.5, 80,
  87.25, 42.3, 65, ...) are exactly representable as doubles, and the
  arithmetic performed on them (sums of two values, halving) is exact, so
  rational arithmetic coincides with double arithmetic on every input
  analysed here.  `pyRound1` models Python `round(x, 1)` (correctly rounded
  decimal rounding, ties to even).
* Python dicts are insertion-ordered association lists
  (`List (String × α)`); `dictInsert` is `d[k] = v` (update the slot in
  place when the key exists, append otherwise), `pyDictGet` is the
  `k in d` test combined with `d[k]`.
* Operations that can raise an uncaught exception in Python return
  `Option`/`none` at the failure point.  `float(s)` applied to a string is
  modelled as a failure (`pyFloat (vStr s) = none`): no analysed input
  stores numeric strings in numeric slots, and every theorem touching such
  a conversion either supplies non-string values or takes success as a
  hypothesis.
* Rendering of values into presentation strings (`pyStr`, the alert
  `message` texts, `strftimeDisplay`) is abstracted: no claim constrains
  the exact display text, only structure, counts and severities.
-/

/-- The four members of `AssetStatus` (`aas_core.py`). -/
inductive AssetStatus
  | active
  | maintenance
  | offline
  | error
deriving DecidableEq

/-- `AssetStatus.value`: the canonical string token of each member. -/
def statusValue : AssetStatus → String
  | .active => "active"
  | .maintenance => "maintenance"
  | .offline => "offline"
  | .error => "error"

/-- `AssetStatus(token)`: the enum constructor applied to a raw string,
failing (`ValueError` in Python) on any other token. -/
def parseStatus : String → Option AssetStatus
  | "active" => some .active
  | "maintenance" => some .maintenance
  | "offline" => some .offline
  | "error" => some .error
  | _ => none

/-- The `Union[str, int, float, bool]` element value (tagged, as pydantic
v2 smart-union validation preserves the exact runtime type). -/
inductive AASValue
  | vStr (s : String)
  | vInt (n : ℤ)
  | vFloat (q : ℚ)
  | vBool (b : Bool)
deriving DecidableEq

/-- `SubmodelElement` (pydantic model, `aas_core.py`).  `last_updated`
defaults to `datetime.now()` at construction. -/
structure SubmodelElement where
  id_short : String
  value : AASValue
  value_type : String
  description : Option String
  last_updated : Nat
deriving DecidableEq

/-- `Submodel` (pydantic model).  `elements` is the insertion-ordered dict
keyed by element `id_short`. -/
structure Submodel where
  id : String
  id_short : String
  semantic_id : Option String
  description : Option String
  elements : List (String × SubmodelElement)
deriving DecidableEq

/-- `AssetAdministrationShell` (pydantic model).  `status` defaults to
`active`; `created` and `last_updated` default to `datetime.now()`. -/
structure AssetAdministrationShell where
  id : String
  id_short : String
  global_asset_id : Option String
  description : Option String
  status : AssetStatus
  created : Nat
  last_modified : Nat
  submodels : List (String × Submodel)
deriving DecidableEq

/-- Python `d[k] = v` on an insertion-ordered dict: overwrite the existing
slot in place, or append a fresh one. -/
def dictInsert {α : Type} (d : List (String × α)) (k : String) (v : α) :
    List (String × α) :=
  if d.any (fun p => p.1 = k) then
    d.map (fun p => if p.1 = k then (k, v) else p)
  else d ++ [(k, v)]

/-- Python `d[k]` guarded by `k in d`. -/
def pyDictGet {α : Type} (d : List (String × α)) (k : String) : Option α :=
  (d.find? (fun p => p.1 = k)).map (·.2)

/-- `Submodel.add_element`: insert/overwrite by the element's `id_short`. -/
def add_element (sm : Submodel) (element : SubmodelElement) : Submodel :=
  { sm with elements := dictInsert sm.elements element.id_short element }

/-- `Submodel.update_element_value`: if the key is present, set `value`
and refresh `last_updated` to the current time; silently a no-op
otherwise. -/
def update_element_value (sm : Submodel) (element_id : String)
    (new_value : AASValue) (now : Nat) : Submodel :=
  if sm.elements.any (fun p => p.1 = element_id) then
    { sm with
      elements := sm.elements.map (fun p =>
        if p.1 = element_id then
          (p.1, { p.2 with value := new_value, last_updated := now })
        else p) }
  else sm

/-- `AssetAdministrationShell.add_submodel`: insert/overwrite by the
submodel's `id_short` and refresh `last_modified`. -/
def add_submodel (a : AssetAdministrationShell) (sm : Submodel)
    (now : Nat) : AssetAdministrationShell :=
  { a with submodels := dictInsert a.submodels sm.id_short sm,
           last_modified := now }

/-- `AssetAdministrationShell.get_submodel`. -/
def get_submodel (a : AssetAdministrationShell) (submodel_id : String) :
    Option Submodel :=
  pyDictGet a.submodels submodel_id

/-- `AssetAdministrationShell.update_status`: set the status and refresh
`last_modified`. -/
def update_status (a : AssetAdministrationShell) (new_status : AssetStatus)
    (now : Nat) : AssetAdministrationShell :=
  { a with status := new_status, last_modified := now }

/-! ## Codec

`encode` is `model_dump_json` (pydantic v2 JSON dump, fields in
declaration order, `None` as JSON null, datetimes as ISO text, the status
enum as its string token).  `decode` is `json.loads` followed by
`AssetAdministrationShell(**data)` (pydantic v2 validation in python
mode: required fields fail when absent, optional fields take their
declared defaults, `default_factory=datetime.now` fields take the current
time, the smart union keeps the exact runtime type). -/

/-- JSON values as produced by `json.loads` / consumed by `json.dumps`.
The `json` module keeps ints and floats apart (a float always carries a
decimal point or exponent), hence the two numeric constructors. -/
inductive Json
  | jNull
  | jStr (s : String)
  | jInt (n : ℤ)
  | jFloat (q : ℚ)
  | jBool (b : Bool)
  | jObj (fields : List (String × Json))

/-- Key lookup in a JSON object (first occurrence). -/
def getField : List (String × Json) → String → Option Json
  | [], _ => none
  | (k, v) :: rest, key => if k = key then some v else getField rest key

/-- Decimal digit to character. -/
def digitChar (d : Nat) : Char := Char.ofNat (48 + d)

/-- Character to decimal digit. -/
def charDigit (c : Char) : Nat := c.toNat - 48

/-- `datetime.isoformat`, abstracted to an injective decimal rendering of
the tick count. -/
def isoformat (t : Nat) : String :=
  String.mk ((Nat.digits 10 t).map digitChar)

/-- The pydantic datetime validator applied to a string: succeeds exactly
on well-formed timestamp text and recovers the original tick count. -/
def parseIso (s : String) : Option Nat :=
  if s.data.all (fun c => 48 ≤ c.toNat && c.toNat ≤ 57)
  then some (Nat.ofDigits 10 (s.data.map charDigit))
  else none

/-- Serialize one element value. -/
def encodeValue : AASValue → Json
  | .vStr s => .jStr s
  | .vInt n => .jInt n
  | .vFloat q => .jFloat q
  | .vBool b => .jBool b

/-- Validate a JSON value against `Union[str, int, float, bool]`
(smart union: the exact runtime type is kept; null/objects fail). -/
def decodeValue : Json → Option AASValue
  | .jStr s => some (.vStr s)
  | .jInt n => some (.vInt n)
  | .jFloat q => some (.vFloat q)
  | .jBool b => some (.vBool b)
  | _ => none

/-- Serialize an `Optional[str]` field (`None` becomes JSON null). -/
def encodeOptStr : Option String → Json
  | none => .jNull
  | some s => .jStr s

/-- Validate an `Optional[str] = None` field: absent or null gives the
default `None`, a string is kept, anything else fails. -/
def decodeOptStr : Option Json → Option (Option String)
  | none => some none
  | some .jNull => some none
  | some (.jStr s) => some (some s)
  | some _ => none

/-- Validate a required `str` field: absent or non-string fails. -/
def reqStr (fields : List (String × Json)) (key : String) : Option String :=
  match getField fields key with
  | some (.jStr s) => some s
  | _ => none

/-- Validate a `datetime = Field(default_factory=datetime.now)` field:
absent gives the current time, timestamp text parses, anything else
fails.  (The validator also accepts numeric epochs; persisted records
only ever hold ISO text, so only that branch is modelled.) -/
def dateField (now : Nat) (fields : List (String × Json)) (key : String) :
    Option Nat :=
  match getField fields key with
  | none => some now
  | some (.jStr s) => parseIso s
  | some _ => none

/-- Validate the `status: AssetStatus = AssetStatus.ACTIVE` field: absent
gives the default `active`, a known token parses, anything else fails. -/
def statusField (fields : List (String × Json)) : Option AssetStatus :=
  match getField fields "status" with
  | none => some .active
  | some (.jStr s) => parseStatus s
  | some _ => none

/-- Serialize a `SubmodelElement` (fields in declaration order). -/
def encodeElement (e : SubmodelElement) : Json :=
  .jObj [("id_short", .jStr e.id_short),
         ("value", encodeValue e.value),
         ("value_type", .jStr e.value_type),
         ("description", encodeOptStr e.description),
         ("last_updated", .jStr (isoformat e.last_updated))]

/-- Validate a JSON value as a `SubmodelElement`. -/
def decodeElement (now : Nat) : Json → Option SubmodelElement
  | .jObj fields => do
    let ids ← reqStr fields "id_short"
    let v ← (getField fields "value").bind decodeValue
    let vt ← reqStr fields "value_type"
    let desc ← decodeOptStr (getField fields "description")
    let lu ← dateField now fields "last_updated"
    pure ⟨ids, v, vt, desc, lu⟩
  | _ => none

/-- Serialize the `elements` dict of a submodel. -/
def encodeElemMap (es : List (String × SubmodelElement)) : Json :=
  .jObj (es.map (fun p => (p.1, encodeElement p.2)))

/-- Validate every entry of a `Dict[str, SubmodelElement]` object. -/
def decodeElemMap (now : Nat) :
    List (String × Json) → Option (List (String × SubmodelElement))
  | [] => some []
  | (k, j) :: rest => do
    let e ← decodeElement now j
    let es ← decodeElemMap now rest
    pure ((k, e) :: es)

/-- Validate the `elements: Dict[str, SubmodelElement] = {}` field. -/
def elementsField (now : Nat) (fields : List (String × Json)) :
    Option (List (String × SubmodelElement)) :=
  match getField fields "elements" with
  | none => some []
  | some (.jObj l) => decodeElemMap now l
  | some _ => none

/-- Serialize a `Submodel`. -/
def encodeSubmodel (sm : Submodel) : Json :=
  .jObj [("id", .jStr sm.id),
         ("id_short", .jStr sm.id_short),
         ("semantic_id", encodeOptStr sm.semantic_id),
         ("description", encodeOptStr sm.description),
         ("elements", encodeElemMap sm.elements)]

/-- Validate a JSON value as a `Submodel`. -/
def decodeSubmodel (now : Nat) : Json → Option Submodel
  | .jObj fields => do
    let i ← reqStr fields "id"
    let ids ← reqStr fields "id_short"
    let sem ← decodeOptStr (getField fields "semantic_id")
    let desc ← decodeOptStr (getField fields "description")
    let es ← elementsField now fields
    pure ⟨i, ids, sem, desc, es⟩
  | _ => none

/-- Serialize the `submodels` dict of a shell. -/
def encodeSubMap (sms : List (String × Submodel)) : Json :=
  .jObj (sms.map (fun p => (p.1, encodeSubmodel p.2)))

/-- Validate every entry of a `Dict[str, Submodel]` object. -/
def decodeSubMap (now : Nat) :
    List (String × Json) → Option (List (String × Submodel))
  | [] => some []
  | (k, j) :: rest => do
    let sm ← decodeSubmodel now j
    let sms ← decodeSubMap now rest
    pure ((k, sm) :: sms)

/-- Validate the `submodels: Dict[str, Submodel] = {}` field. -/
def submodelsField (now : Nat) (fields : List (String × Json)) :
    Option (List (String × Submodel)) :=
  match getField fields "submodels" with
  | none => some []
  | some (.jObj l) => decodeSubMap now l
  | some _ => none

/-- `model_dump_json` on a full shell: the write-side codec. -/
def encodeShell (a : AssetAdministrationShell) : Json :=
  .jObj [("id", .jStr a.id),
         ("id_short", .jStr a.id_short),
         ("global_asset_id", encodeOptStr a.global_asset_id),
         ("description", encodeOptStr a.description),
         ("status", .jStr (statusValue a.status)),
         ("created", .jStr (isoformat a.created)),
         ("last_modified", .jStr (isoformat a.last_modified)),
         ("submodels", encodeSubMap a.submodels)]

/-- `json.loads` + `AssetAdministrationShell(**data)`: the read-side
codec.  `now` is the clock value supplying `default_factory` defaults. -/
def decodeShell (now : Nat) : Json → Option AssetAdministrationShell
  | .jObj fields => do
    let i ← reqStr fields "id"
    let ids ← reqStr fields "id_short"
    let gai ← decodeOptStr (getField fields "global_asset_id")
    let desc ← decodeOptStr (getField fields "description")
    let st ← statusField fields
    let cr ← dateField now fields "created"
    let lm ← dateField now fields "last_modified"
    let sms ← submodelsField now fields
    pure ⟨i, ids, gai, desc, st, cr, lm, sms⟩
  | _ => none

/-! ## Repository

`AASRepository` over the two SQLite tables (`init_database`).  A table is
a list of rows; `id` is the PRIMARY KEY of each table and `aas.id_short`
carries a UNIQUE constraint.  Each write runs inside one
`sqlite3.connect` context manager: the transaction commits when every
statement succeeds and rolls back on the first `IntegrityError`, which the
source catches to `return False` — so a failing write is modelled
all-or-nothing, with the conflict predicates spelling out exactly the
constraint violations that can fire. -/

/-- One row of the `aas` table (indexed projection plus serialized
payload). -/
structure AasRow where
  id : String
  id_short : String
  global_asset_id : Option String
  description : Option String
  status : String
  created : String
  last_modified : String
  data : Json

/-- One row of the `submodels` table. -/
structure SubmodelRow where
  id : String
  aas_id : String
  id_short : String
  semantic_id : Option String
  description : Option String
  data : Json

/-- The persistent state of one repository database. -/
structure RepoState where
  aas : List AasRow
  submodels : List SubmodelRow

/-- The fresh database produced by `init_database`. -/
def emptyRepo : RepoState := ⟨[], []⟩

/-- The indexed `aas` row written for a shell by `create_aas`. -/
def aasRowOf (a : AssetAdministrationShell) : AasRow :=
  ⟨a.id, a.id_short, a.global_asset_id, a.description, statusValue a.status,
   isoformat a.created, isoformat a.last_modified, encodeShell a⟩

/-- The `submodels` rows written for a shell by `create_aas` (one INSERT
per value of the `submodels` dict, in iteration order). -/
def submodelRowsOf (a : AssetAdministrationShell) : List SubmodelRow :=
  a.submodels.map (fun p =>
    ⟨p.2.id, a.id, p.2.id_short, p.2.semantic_id, p.2.description,
     encodeSubmodel p.2⟩)

/-- The `id`s of the shell's submodels, in insertion order. -/
def submodelIds (a : AssetAdministrationShell) : List String :=
  a.submodels.map (fun p => p.2.id)

/-- Whether a list of strings contains a repeated entry. -/
def listHasDup : List String → Bool
  | [] => false
  | x :: xs => xs.contains x || listHasDup xs

/-- The INSERT into `aas` violates its PRIMARY KEY (`id`) or UNIQUE
(`id_short`) constraint. -/
def aasConflict (st : RepoState) (a : AssetAdministrationShell) : Bool :=
  st.aas.any (fun r => r.id = a.id || r.id_short = a.id_short)

/-- Some INSERT into `submodels` violates its PRIMARY KEY (`id`): either
a persisted submodel row already holds the id, or the batch itself
repeats an id. -/
def submodelConflict (st : RepoState) (a : AssetAdministrationShell) : Bool :=
  (submodelIds a).any (fun i => st.submodels.any (fun r => r.id = i)) ||
    listHasDup (submodelIds a)

/-- `AASRepository.create_aas`: INSERT the indexed row and every submodel
row inside one transaction; any constraint violation rolls the whole
transaction back and returns `False`. -/
def create_aas (st : RepoState) (a : AssetAdministrationShell) :
    Bool × RepoState :=
  if aasConflict st a || submodelConflict st a then (false, st)
  else (true, ⟨st.aas ++ [aasRowOf a], st.submodels ++ submodelRowsOf a⟩)

/-- `AASRepository.get_aas`: SELECT the payload by primary key, then
decode it; a missing row or a decode failure (caught exception) yields
`None`. -/
def get_aas (st : RepoState) (now : Nat) (aas_id : String) :
    Option AssetAdministrationShell :=
  match st.aas.find? (fun r => r.id = aas_id) with
  | none => none
  | some r => decodeShell now r.data

/-- Decode every payload of the `aas` table in row order, failing as a
whole if any row fails. -/
def decodeAllRows (now : Nat) : List AasRow →
    Option (List AssetAdministrationShell)
  | [] => some []
  | r :: rest => do
    let a ← decodeShell now r.data
    let as_ ← decodeAllRows now rest
    pure (a :: as_)

/-- `AASRepository.list_all_aas`: decode every stored payload; the
enclosing `except` returns the empty list if any row raises. -/
def list_all_aas (st : RepoState) (now : Nat) :
    List AssetAdministrationShell :=
  match decodeAllRows now st.aas with
  | some l => l
  | none => []

/-- The row produced by the UPDATE statement of `update_aas`: every SET
column is overwritten (note `created` and `id` are not in the SET list),
and the payload is the dump of the shell after the repository refreshed
its `last_modified`. -/
def updatedRowOf (r : AasRow) (a : AssetAdministrationShell) (now : Nat) :
    AasRow :=
  let a2 := { a with last_modified := now }
  ⟨r.id, a2.id_short, a2.global_asset_id, a2.description,
   statusValue a2.status, r.created, isoformat now, encodeShell a2⟩

/-- `AASRepository.update_aas`: first refresh `aas.last_modified` to the
current time, then UPDATE the row whose primary key matches; zero
affected rows returns `False`, and a UNIQUE(`id_short`) violation against
a different row raises, rolls back and returns `False`. -/
def update_aas (st : RepoState) (now : Nat)
    (a : AssetAdministrationShell) : Bool × RepoState :=
  let a2 := { a with last_modified := now }
  if st.aas.all (fun r => r.id ≠ a2.id) then (false, st)
  else if st.aas.any (fun r => r.id ≠ a2.id && r.id_short = a2.id_short) then
    (false, st)
  else (true, ⟨st.aas.map (fun r =>
    if r.id = a2.id then updatedRowOf r a now else r), st.submodels⟩)

/-! ## Analytics (`dashboard/aas_integration.py`)

Each connector method begins with `self.repo.list_all_aas()`; the
functions below take that list as input.  A method body that can raise an
uncaught exception (a slice or an arithmetic comparison on a value of the
wrong runtime type) returns `Option` and yields `none` at the first
offending shell. -/

/-- Python `float(value)` on an element value.  Conversion of numeric
strings is not modelled (`vStr` fails): every theorem below either
supplies non-string values or assumes the conversion succeeded. -/
def pyFloat : AASValue → Option ℚ
  | .vStr _ => none
  | .vInt n => some (n : ℚ)
  | .vFloat q => some q
  | .vBool b => some (if b then 1 else 0)

/-- Python `value > q` on a raw element value: defined on numbers (a bool
compares as its integer value), a `TypeError` on strings. -/
def pyGtNum (v : AASValue) (q : ℚ) : Option Bool :=
  match v with
  | .vStr _ => none
  | .vInt n => some (decide (q < (n : ℚ)))
  | .vFloat x => some (decide (q < x))
  | .vBool b => some (decide (q < if b then (1 : ℚ) else 0))

/-- Python `value[:10]`: the first ten characters of a string, a
`TypeError` on every other value kind. -/
def pySlice10 : AASValue → Option String
  | .vStr s => some (s.take 10)
  | _ => none

/-- Rendering of a value inside an f-string.  The exact Python `repr` of
floats is abstracted; no theorem constrains these display texts. -/
def pyStr : AASValue → String
  | .vStr s => s
  | .vInt n => toString n
  | .vFloat q => toString q
  | .vBool b => if b then "True" else "False"

/-- Rendering of a Python float inside an f-string (abstracted). -/
def pyStrQ (q : ℚ) : String := toString q

/-- `strftime` display rendering of a timestamp (abstracted; the actual
minute-precision format is presentation-only). -/
def strftimeDisplay (t : Nat) : String := isoformat t

/-- `status.value.title()`. -/
def statusTitle : AssetStatus → String
  | .active => "Active"
  | .maintenance => "Maintenance"
  | .offline => "Offline"
  | .error => "Error"

/-- Python `round(x, 1)`: correctly rounded decimal rounding to one
fractional digit, ties to even. -/
def roundHalfEven (q : ℚ) : ℤ :=
  if q - ⌊q⌋ < 1/2 then ⌊q⌋
  else if q - ⌊q⌋ > 1/2 then ⌊q⌋ + 1
  else if ⌊q⌋ % 2 = 0 then ⌊q⌋ else ⌊q⌋ + 1

/-- `round(x, 1)` proper. -/
def pyRound1 (q : ℚ) : ℚ := (roundHalfEven (q * 10) : ℚ) / 10

/-- Look up one element value along submodel and element `id_short`
keys. -/
def elemValue (a : AssetAdministrationShell) (smKey elemKey : String) :
    Option AASValue :=
  (pyDictGet a.submodels smKey).bind
    (fun sm => (pyDictGet sm.elements elemKey).map (·.value))

/-- One row of the `get_assets_summary` data frame. -/
structure SummaryRow where
  rowId : String
  name : String
  rowStatus : String
  last_maintenance : String
  next_service : String
  efficiency : String
deriving DecidableEq

/-- The `Last_Maintenance`/`Next_Service` cells of one shell: "N/A" when
the Maintenance submodel or the element is absent, otherwise the value
sliced with `[:10]` (which raises on a non-string value). -/
def maintDates (a : AssetAdministrationShell) : Option (String × String) :=
  match pyDictGet a.submodels "Maintenance" with
  | none => some ("N/A", "N/A")
  | some msm => do
    let lm ← match pyDictGet msm.elements "LastService" with
      | none => some "N/A"
      | some e => pySlice10 e.value
    let ns ← match pyDictGet msm.elements "NextService" with
      | none => some "N/A"
      | some e => pySlice10 e.value
    pure (lm, ns)

/-- The `Efficiency` display cell of one shell (an f-string, so it never
raises). -/
def efficiencyCell (a : AssetAdministrationShell) : String :=
  match elemValue a "Operation" "Efficiency" with
  | none => "N/A"
  | some v => pyStr v ++ "%"

/-- Python `aas.description or aas.id_short` (an empty string is
falsy). -/
def nameOf (a : AssetAdministrationShell) : String :=
  match a.description with
  | some d => if d = "" then a.id_short else d
  | none => a.id_short

/-- One iteration of the `get_assets_summary` loop. -/
def summaryRow (a : AssetAdministrationShell) : Option SummaryRow :=
  (maintDates a).map (fun p =>
    ⟨a.id_short, nameOf a, statusTitle a.status, p.1, p.2,
     efficiencyCell a⟩)

/-- `DashboardAASConnector.get_assets_summary` over the listed shells;
`none` when some row raises. -/
def get_assets_summary : List AssetAdministrationShell →
    Option (List SummaryRow)
  | [] => some []
  | a :: rest => do
    let row ← summaryRow a
    let rows ← get_assets_summary rest
    pure (row :: rows)

/-- The per-element record inside `get_asset_details`. -/
structure ElementDetail where
  value : AASValue
  etype : String
  description : Option String
  last_updated : String
deriving DecidableEq

/-- The record returned by `get_asset_details` for a matching shell. -/
structure AssetDetails where
  asset_id : String
  name : String
  detStatus : String
  created : String
  last_modified : String
  properties : List (String × AASValue)
  submodels : List (String × List (String × ElementDetail))
deriving DecidableEq

/-- The full nested projection built for one matching shell
(`properties` is always left empty by the source). -/
def detailsOf (a : AssetAdministrationShell) : AssetDetails :=
  ⟨a.id, nameOf a, statusValue a.status, strftimeDisplay a.created,
   strftimeDisplay a.last_modified, [],
   a.submodels.map (fun sp =>
     (sp.1, sp.2.elements.map (fun ep =>
       (ep.1, ⟨ep.2.value, ep.2.value_type, ep.2.description,
               strftimeDisplay ep.2.last_updated⟩))))⟩

/-- `DashboardAASConnector.get_asset_details`: the first shell whose
`id_short` equals the argument or whose `id` ends with it, projected;
`None` when nothing matches. -/
def get_asset_details (all_aas : List AssetAdministrationShell)
    (asset_id : String) : Option AssetDetails :=
  (all_aas.find? (fun a =>
    a.id_short = asset_id || List.isSuffixOf asset_id.data a.id.data)).map
    detailsOf

/-- The record returned by `get_system_metrics`.  Its keys are exactly
the five computed by the source: shells in `error` status are counted in
no status bucket. -/
structure SystemMetrics where
  total_assets : Nat
  active_assets : Nat
  maintenance_assets : Nat
  offline_assets : Nat
  average_efficiency : ℚ
deriving DecidableEq

/-- The `efficiencies` accumulation loop: `float()` of every
Operation/Efficiency value, failing if a conversion raises. -/
def collectEfficiencies : List AssetAdministrationShell → Option (List ℚ)
  | [] => some []
  | a :: rest => do
    let tail ← collectEfficiencies rest
    match elemValue a "Operation" "Efficiency" with
    | none => pure tail
    | some v => do
      let q ← pyFloat v
      pure (q :: tail)

/-- `DashboardAASConnector.get_system_metrics`. -/
def get_system_metrics (all_aas : List AssetAdministrationShell) :
    Option SystemMetrics := do
  let effs ← collectEfficiencies all_aas
  let avg : ℚ := if effs.isEmpty then 0 else effs.sum / effs.length
  pure ⟨all_aas.length,
        (all_aas.filter (fun a => a.status = .active)).length,
        (all_aas.filter (fun a => a.status = .maintenance)).length,
        (all_aas.filter (fun a => a.status = .offline)).length,
        pyRound1 avg⟩

/-- One alert entry of `get_maintenance_alerts`. -/
structure Alert where
  asset : String
  atype : String
  message : String
  severity : String
deriving DecidableEq

/-- The projection of an alert onto the fields the claims constrain
(asset, type, severity); the free-text `message` is display-only. -/
def alertKey (x : Alert) : String × String × String :=
  (x.asset, x.atype, x.severity)

/-- The maintenance-rule alerts of one shell (`ServiceHours > 2000`,
severity by `> 2500`; the raw comparison raises on a string value). -/
def maintAlerts (a : AssetAdministrationShell) : Option (List Alert) :=
  match elemValue a "Maintenance" "ServiceHours" with
  | none => some []
  | some v => do
    let gt2000 ← pyGtNum v 2000
    if gt2000 then
      let sev := if pyGtNum v 2500 = some true then "high" else "medium"
      pure [⟨a.id_short, "maintenance",
             "Service hours (" ++ pyStr v ++
               "h) approaching maintenance limit", sev⟩]
    else pure []

/-- The efficiency-rule alerts of one shell (`float(value) < 85`). -/
def effAlerts (a : AssetAdministrationShell) : Option (List Alert) :=
  match elemValue a "Operation" "Efficiency" with
  | none => some []
  | some v => do
    let q ← pyFloat v
    if q < 85 then
      pure [⟨a.id_short, "performance",
             "Low efficiency: " ++ pyStrQ q ++ "%", "medium"⟩]
    else pure []

/-- The temperature-rule alerts of one shell (`float(value) > 60`). -/
def tempAlerts (a : AssetAdministrationShell) : Option (List Alert) :=
  match elemValue a "Operation" "Temperature" with
  | none => some []
  | some v => do
    let q ← pyFloat v
    if q > 60 then
      pure [⟨a.id_short, "temperature",
             "High temperature: " ++ pyStrQ q ++ "°C", "high"⟩]
    else pure []

/-- The alerts contributed by one shell, in rule order. -/
def shellAlerts (a : AssetAdministrationShell) : Option (List Alert) := do
  let m ← maintAlerts a
  let e ← effAlerts a
  let t ← tempAlerts a
  pure (m ++ e ++ t)

/-- `DashboardAASConnector.get_maintenance_alerts` over the listed
shells. -/
def get_maintenance_alerts : List AssetAdministrationShell →
    Option (List Alert)
  | [] => some []
  | a :: rest => do
    let here ← shellAlerts a
    let there ← get_maintenance_alerts rest
    pure (here ++ there)

/-! ## Mutation sequences (for the timestamp invariant)

One step is a domain mutation of a single shell together with the clock
value `datetime.now()` returns inside it. -/

/-- One shell mutation: `add_submodel`, `update_status`, or the
`last_modified` refresh `update_aas` applies to the passed shell. -/
inductive ShellMutation
  | attach (sm : Submodel)
  | setStatus (s : AssetStatus)
  | repoRefresh

/-- Apply one mutation at one clock value. -/
def applyMutation (now : Nat) (a : AssetAdministrationShell) :
    ShellMutation → AssetAdministrationShell
  | .attach sm => add_submodel a sm now
  | .setStatus s => update_status a s now
  | .repoRefresh => { a with last_modified := now }

/-- Apply a timed sequence of mutations in order. -/
def applySteps (a : AssetAdministrationShell) :
    List (Nat × ShellMutation) → AssetAdministrationShell
  | [] => a
  | (t, m) :: rest => applySteps (applyMutation t a m) rest

/-- A monotone clock: the step times are non-decreasing and start no
earlier than `t0`. -/
def ClockOK (t0 : Nat) (steps : List (Nat × ShellMutation)) : Prop :=
  List.Chain' (fun x y => x ≤ y) (t0 :: steps.map Prod.fst)

/-! ## Codec round-trip lemmas -/

/-- Rendering then reading a decimal digit is the identity. -/
theorem charDigit_digitChar (d : Nat) (h : d < 10) :
    charDigit (digitChar d) = d := by
  interval_cases d <;> decide

/-- The timestamp text written by the codec parses back to the same
tick count. -/
theorem parseIso_isoformat (t : Nat) : parseIso (isoformat t) = some t := by
  unfold parseIso isoformat
  rw [if_pos]
  · congr 1
    rw [List.map_map]
    have h : ∀ d ∈ Nat.digits 10 t, (charDigit ∘ digitChar) d = d := by
      intro d hd
      have h10 : d < 10 := Nat.digits_lt_base (by norm_num) hd
      simpa using charDigit_digitChar d h10
    rw [List.map_congr_left h, List.map_id', Nat.ofDigits_digits]
  · rw [List.all_eq_true]
    intro c hc
    simp only [List.mem_map] at hc
    obtain ⟨d, hd, rfl⟩ := hc
    have h10 : d < 10 := Nat.digits_lt_base (by norm_num) hd
    interval_cases d <;> decide

/-- The smart union keeps each serialized value kind. -/
theorem decodeValue_encodeValue (v : AASValue) :
    decodeValue (encodeValue v) = some v := by
  cases v <;> rfl

/-- Optional string fields round-trip. -/
theorem decodeOptStr_encodeOptStr (o : Option String) :
    decodeOptStr (some (encodeOptStr o)) = some o := by
  cases o <;> rfl

/-- The status token written by the codec parses back to the same
member. -/
theorem parseStatus_statusValue (s : AssetStatus) :
    parseStatus (statusValue s) = some s := by
  cases s <;> rfl

/-- Elements round-trip through the codec. -/
theorem decodeElement_encode (now : Nat) (e : SubmodelElement) :
    decodeElement now (encodeElement e) = some e := by
  simp [decodeElement, encodeElement, getField, reqStr, dateField,
    statusField, parseIso_isoformat, decodeValue_encodeValue,
    decodeOptStr_encodeOptStr]

/-- Element dicts round-trip through the codec. -/
theorem decodeElemMap_encode (now : Nat)
    (es : List (String × SubmodelElement)) :
    decodeElemMap now (es.map (fun p => (p.1, encodeElement p.2))) =
      some es := by
  induction es with
  | nil => rfl
  | cons p rest ih =>
      simp [decodeElemMap, decodeElement_encode, ih]

/-- Submodels round-trip through the codec. -/
theorem decodeSubmodel_encode (now : Nat) (sm : Submodel) :
    decodeSubmodel now (encodeSubmodel sm) = some sm := by
  simp [decodeSubmodel, encodeSubmodel, getField, reqStr, elementsField,
    encodeElemMap, decodeElemMap_encode, decodeOptStr_encodeOptStr]

/-- Submodel dicts round-trip through the codec. -/
theorem decodeSubMap_encode (now : Nat) (sms : List (String × Submodel)) :
    decodeSubMap now (sms.map (fun p => (p.1, encodeSubmodel p.2))) =
      some sms := by
  induction sms with
  | nil => rfl
  | cons p rest ih =>
      simp [decodeSubMap, decodeSubmodel_encode, ih]

/-- Full shells round-trip through the codec. -/
theorem decodeShell_encodeShell (now : Nat)
    (x : AssetAdministrationShell) :
    decodeShell now (encodeShell x) = some x := by
  simp [decodeShell, encodeShell, getField, reqStr, dateField, statusField,
    submodelsField, encodeSubMap, decodeSubMap_encode, parseIso_isoformat,
    parseStatus_statusValue, decodeOptStr_encodeOptStr]

/-- C1.  Codec round trip: for every valid Asset Shell `x` (any
combination of Submodels and Elements, Elements holding each of the four
value kinds, including empty Submodel collections), deserializing the
serialized form yields a value equal to `x`: `decode(encode(x)) = x`,
where `encodeShell` is the pydantic JSON dump used on write and
`decodeShell` is the JSON-parse-and-reconstruct used on read. -/
theorem C1_codec_round_trip (now : Nat) (x : AssetAdministrationShell) :
    decodeShell now (encodeShell x) = some x :=
  decodeShell_encodeShell now x

/-- C2 counterexample.  A persisted payload that carries `id` and
`id_short` but lacks the `status` identity field decodes successfully,
with the declared default `active` silently substituted — refuting the
claim that decoding never succeeds when any of `id`, `id_short`,
`status` is missing. -/
theorem C2_counterexample :
    decodeShell 0 (Json.jObj [("id", Json.jStr "urn:aas:x"),
        ("id_short", Json.jStr "X")]) =
      some ⟨"urn:aas:x", "X", none, none, AssetStatus.active, 0, 0, []⟩ := by
  rfl

/-- C2 as amended.  Decoding a payload missing `id` or `id_short` fails
(no record is produced); `status`, by contrast, carries a declared
default, so a payload missing `status` decodes with `active`
substituted. -/
theorem C2_decode_failure :
    (∀ (now : Nat) (fields : List (String × Json)),
      getField fields "id" = none ∨ getField fields "id_short" = none →
      decodeShell now (Json.jObj fields) = none) ∧
    (∀ (now : Nat) (fields : List (String × Json))
        (a : AssetAdministrationShell),
      getField fields "status" = none →
      decodeShell now (Json.jObj fields) = some a →
      a.status = AssetStatus.active) := by
  constructor
  · intro now fields h
    rcases h with h | h
    · simp [decodeShell, reqStr, h]
    · cases hid : reqStr fields "id" with
      | none => simp [decodeShell, hid]
      | some i => simp [decodeShell, hid, reqStr, h]
  · intro now fields a hst hdec
    simp only [decodeShell, bind, Option.bind_eq_some] at hdec
    obtain ⟨i, hi, ids, hids, gai, hgai, desc, hdesc, st, hstf, cr, hcr,
      lm, hlm, sms, hsms, hpure⟩ := hdec
    rw [statusField, hst] at hstf
    cases hstf
    cases hpure
    rfl

/-- C2 witness: a payload lacking `id_short` fails to decode, and the
record decoded from a status-free payload carries the default. -/
theorem C2_decode_failure_witness :
    decodeShell 0 (Json.jObj [("id", Json.jStr "a")]) = none ∧
    (⟨"a", "b", none, none, AssetStatus.active, 0, 0, []⟩ :
        AssetAdministrationShell).status = AssetStatus.active :=
  ⟨C2_decode_failure.1 0 [("id", Json.jStr "a")] (Or.inr rfl),
   C2_decode_failure.2 0 [("id", Json.jStr "a"), ("id_short", Json.jStr "b")]
     ⟨"a", "b", none, none, AssetStatus.active, 0, 0, []⟩ rfl rfl⟩

/-! ## Concrete sample data used by the analytics claims -/

/-- A metadata-free element holding one value. -/
def sampleElement (k : String) (v : AASValue) : SubmodelElement :=
  ⟨k, v, "number", none, 0⟩

/-- A metadata-free submodel holding the given elements. -/
def sampleSubmodel (smId smShort : String)
    (es : List (String × SubmodelElement)) : Submodel :=
  ⟨smId, smShort, none, none, es⟩

/-- A shell with the given identity, status and submodels. -/
def sampleShell (i ishort : String) (st : AssetStatus)
    (sms : List (String × Submodel)) : AssetAdministrationShell :=
  ⟨i, ishort, none, none, st, 0, 0, sms⟩

/-- An active shell whose Operation submodel carries one Efficiency
value. -/
def effShell (ishort : String) (q : ℚ) : AssetAdministrationShell :=
  sampleShell ("urn:aas:" ++ ishort) ishort .active
    [("Operation", sampleSubmodel ("urn:sm:op:" ++ ishort) "Operation"
      [("Efficiency", sampleElement "Efficiency" (.vFloat q))])]

/-- A shell in `error` status with no submodels. -/
def errorShell : AssetAdministrationShell :=
  sampleShell "urn:aas:E" "E" .error []

/-- The one rounding computation the concrete claims reach: 87.25, the
exact mean of 94.5 and 80, rounds to 87.2 (the tie goes to the even
digit). -/
theorem roundHalfEven_concrete : roundHalfEven (1745/2) = 872 := by
  have hf : ⌊(1745/2 : ℚ)⌋ = 872 := by
    rw [Int.floor_eq_iff]
    norm_num
  unfold roundHalfEven
  rw [hf]
  norm_num

/-- `round(87.25, 1) = 87.2` in the source's arithmetic. -/
theorem pyRound1_concrete : pyRound1 (349/4) = 436/5 := by
  have h : (349 : ℚ)/4 * 10 = 1745/2 := by norm_num
  rw [pyRound1, h, roundHalfEven_concrete]
  norm_num

/-- `round(0, 1) = 0`. -/
theorem pyRound1_zero : pyRound1 0 = 0 := by
  have hf : ⌊(0 : ℚ)⌋ = 0 := by norm_num
  rw [pyRound1]
  norm_num [roundHalfEven, hf]

/-- The efficiency accumulation over the concrete two-shell store. -/
theorem collect_two :
    collectEfficiencies [effShell "A" (189/2), effShell "B" 80] =
      some [189/2, 80] := by
  simp [collectEfficiencies, effShell, sampleShell, sampleSubmodel,
    sampleElement, elemValue, pyDictGet, pyFloat]

/-- C3 counterexample.  For the store holding exactly the two shells
with Operation/Efficiency 94.5 and 80, the reported `average_efficiency`
is 87.2 — the correctly rounded one-decimal value under
round-half-to-even — and not 87.25 as claimed. -/
theorem C3_counterexample :
    (get_system_metrics [effShell "A" (189/2), effShell "B" 80]).map
        (fun m => m.average_efficiency) = some (436/5) ∧
      (436/5 : ℚ) ≠ 349/4 := by
  have h2 : (189/2 + (80 : ℚ))/2 = 349/4 := by norm_num
  constructor
  · unfold get_system_metrics
    rw [collect_two]
    simp [h2, pyRound1_concrete]
  · norm_num

/-- C3 as amended.  `get_system_metrics` reports the store size and the
counts of Active, Maintenance and Offline shells only (a shell in Error
status is counted in no status bucket, only in the total), plus the mean
Efficiency rounded to one decimal with ties to even: for the concrete
94.5/80 store the average is 87.2, and when no shell carries an
Efficiency element the average is exactly 0 (the fixed empty-set
default, not a division error). -/
theorem C3_fleet_metrics :
    get_system_metrics [effShell "A" (189/2), effShell "B" 80] =
        some ⟨2, 2, 0, 0, 436/5⟩ ∧
      (∀ all_aas : List AssetAdministrationShell,
        (∀ a ∈ all_aas, elemValue a "Operation" "Efficiency" = none) →
        get_system_metrics all_aas =
          some ⟨all_aas.length,
                (all_aas.filter (fun a => a.status = .active)).length,
                (all_aas.filter (fun a => a.status = .maintenance)).length,
                (all_aas.filter (fun a => a.status = .offline)).length,
                0⟩) ∧
      get_system_metrics [errorShell] = some ⟨1, 0, 0, 0, 0⟩ := by
  have hgen : ∀ all_aas : List AssetAdministrationShell,
      (∀ a ∈ all_aas, elemValue a "Operation" "Efficiency" = none) →
      get_system_metrics all_aas =
        some ⟨all_aas.length,
              (all_aas.filter (fun a => a.status = .active)).length,
              (all_aas.filter (fun a => a.status = .maintenance)).length,
              (all_aas.filter (fun a => a.status = .offline)).length,
              0⟩ := by
    intro all_aas h
    have hc : collectEfficiencies all_aas = some [] := by
      induction all_aas with
      | nil => rfl
      | cons a rest ih =>
          have ha := h a (List.mem_cons_self _ _)
          have hr := ih (fun x hx => h x (List.mem_cons_of_mem _ hx))
          simp [collectEfficiencies, ha, hr]
    unfold get_system_metrics
    rw [hc]
    simp [pyRound1_zero]
  refine ⟨?_, hgen, ?_⟩
  · have h2 : (189/2 + (80 : ℚ))/2 = 349/4 := by norm_num
    unfold get_system_metrics
    rw [collect_two]
    simp [h2, pyRound1_concrete, effShell, sampleShell]
  · rw [hgen [errorShell] (by simp [errorShell, sampleShell, elemValue,
      pyDictGet])]
    simp [errorShell, sampleShell]

/-- C3 witness: the amended statement applied to the one-Error-shell
store, whose only shell has no Efficiency element. -/
theorem C3_fleet_metrics_witness :
    get_system_metrics [errorShell] = some ⟨1, 0, 0, 0, 0⟩ := by
  rw [C3_fleet_metrics.2.1 [errorShell] (by simp [errorShell, sampleShell,
    elemValue, pyDictGet])]
  simp [errorShell, sampleShell]

/-! ## Repository create/update claims -/

/-- `listHasDup` decides exactly the negation of `Nodup`. -/
theorem listHasDup_eq_false (l : List String) :
    listHasDup l = false ↔ l.Nodup := by
  induction l with
  | nil => simp [listHasDup]
  | cons x xs ih =>
      simp [listHasDup, List.nodup_cons, ih, List.elem_iff]

/-- An active shell holding one empty submodel with the given submodel
id. -/
def subShell (i ishort smId : String) : AssetAdministrationShell :=
  sampleShell i ishort .active [("SM", sampleSubmodel smId "SM" [])]

/-- A shell persisted first in the concrete scenarios. -/
def s1 : AssetAdministrationShell := subShell "urn:aas:1" "S1" "urn:sm:1"

/-- The repository state after `create_aas` of `s1` in a fresh
database. -/
def st1 : RepoState := ⟨[aasRowOf s1], submodelRowsOf s1⟩

/-- C4 counterexample.  A shell whose `id` and `id_short` are both fresh
is still rejected by `create_aas` (store unchanged) when one of its
submodels reuses a persisted submodel `id` — refuting the claim that
absence of a shell-identity duplicate suffices for the create to
persist. -/
theorem C4_counterexample :
    (st1.aas.all (fun r =>
        !(r.id = (subShell "urn:aas:2" "S2" "urn:sm:1").id) &&
        !(r.id_short = (subShell "urn:aas:2" "S2" "urn:sm:1").id_short)))
        = true ∧
      create_aas st1 (subShell "urn:aas:2" "S2" "urn:sm:1") =
        (false, st1) := by
  constructor
  · rfl
  · rfl

/-- C4 as amended.  `create_aas` on a shell whose `id` or `id_short` is
already persisted fails with the store unchanged; conversely, when the
shell identity is fresh AND its submodel ids are fresh and pairwise
distinct, the create persists the indexed row and every submodel row. -/
theorem C4_create_uniqueness :
    ∀ (st : RepoState) (a : AssetAdministrationShell),
      ((∃ r ∈ st.aas, r.id = a.id ∨ r.id_short = a.id_short) →
        create_aas st a = (false, st)) ∧
      ((∀ r ∈ st.aas, r.id ≠ a.id ∧ r.id_short ≠ a.id_short) →
        (∀ i ∈ submodelIds a, ∀ r ∈ st.submodels, r.id ≠ i) →
        (submodelIds a).Nodup →
        create_aas st a =
          (true, ⟨st.aas ++ [aasRowOf a],
                  st.submodels ++ submodelRowsOf a⟩)) := by
  intro st a
  constructor
  · intro h
    have hc : aasConflict st a = true := by
      obtain ⟨r, hr, hor⟩ := h
      simp only [aasConflict, List.any_eq_true]
      exact ⟨r, hr, by simpa using hor⟩
    simp [create_aas, hc]
  · intro h1 h2 h3
    have hc : aasConflict st a = false := by
      simp only [aasConflict, List.any_eq_false]
      intro r hr
      have := h1 r hr
      simp [this.1, this.2]
    have hs : submodelConflict st a = false := by
      simp only [submodelConflict, Bool.or_eq_false_iff]
      constructor
      · rw [Bool.eq_false_iff]
        intro hco
        rw [List.any_eq_true] at hco
        obtain ⟨i, hi, hco2⟩ := hco
        rw [List.any_eq_true] at hco2
        obtain ⟨r, hr, heq⟩ := hco2
        exact h2 i hi r hr (by simpa using heq)
      · exact (listHasDup_eq_false _).2 h3
    simp [create_aas, hc, hs]

/-- C4 witness: the duplicate-identity rejection and the successful
create, each at a concrete store. -/
theorem C4_create_uniqueness_witness :
    create_aas st1 (subShell "urn:aas:1" "S1" "urn:sm:9") = (false, st1) ∧
      create_aas emptyRepo s1 =
        (true, ⟨[aasRowOf s1], submodelRowsOf s1⟩) := by
  constructor
  · exact (C4_create_uniqueness st1 (subShell "urn:aas:1" "S1" "urn:sm:9")).1
      ⟨aasRowOf s1, by simp [st1], Or.inl rfl⟩
  · have h := (C4_create_uniqueness emptyRepo s1).2
      (by intro r hr; simp [emptyRepo] at hr)
      (by intro i hi r hr; simp [emptyRepo] at hr)
      (by simp [s1, subShell, sampleShell, submodelIds, sampleSubmodel])
    simpa [emptyRepo] using h

/-- C10.  Global submodel-id uniqueness on create: even when the shell's
own `id` and `id_short` are fresh, `create_aas` fails and leaves the
store entirely unchanged — the shell's own row included — as soon as one
of its submodels carries an `id` already persisted under any shell. -/
theorem C10_submodel_id_unique_on_create :
    ∀ (st : RepoState) (a : AssetAdministrationShell),
      (∀ r ∈ st.aas, r.id ≠ a.id ∧ r.id_short ≠ a.id_short) →
      (∃ p ∈ a.submodels, ∃ r ∈ st.submodels, p.2.id = r.id) →
      create_aas st a = (false, st) := by
  intro st a _ h
  have hs : submodelConflict st a = true := by
    obtain ⟨p, hp, r, hr, hid⟩ := h
    simp only [submodelConflict, Bool.or_eq_true, List.any_eq_true]
    left
    exact ⟨p.2.id, List.mem_map.2 ⟨p, hp, rfl⟩, r, hr, by simp [hid]⟩
  simp [create_aas, hs]

/-- C10 witness: the concrete store holding `s1` rejects a fresh-identity
shell reusing submodel id `urn:sm:1`, leaving the store unchanged. -/
theorem C10_submodel_id_unique_on_create_witness :
    create_aas st1 (subShell "urn:aas:3" "S3" "urn:sm:1") = (false, st1) :=
  C10_submodel_id_unique_on_create st1 (subShell "urn:aas:3" "S3" "urn:sm:1")
    (by intro r hr
        simp only [st1, List.mem_singleton] at hr
        subst hr
        constructor
        · decide
        · decide)
    ⟨("SM", sampleSubmodel "urn:sm:1" "SM" []),
     by simp [subShell, sampleShell],
     ⟨"urn:sm:1", "urn:aas:1", "SM", none, none,
      encodeSubmodel (sampleSubmodel "urn:sm:1" "SM" [])⟩,
     by simp [st1, submodelRowsOf, s1, subShell, sampleShell,
       sampleSubmodel, aasRowOf],
     rfl⟩

/-- Two persisted shells used in the update scenarios. -/
def shellU1 : AssetAdministrationShell := sampleShell "u1" "A" .active []

/-- The second persisted shell, holding `id_short` B. -/
def shellU2 : AssetAdministrationShell := sampleShell "u2" "B" .active []

/-- A store holding the rows of `shellU1` and `shellU2`. -/
def stU : RepoState := ⟨[aasRowOf shellU1, aasRowOf shellU2], []⟩

/-- The update that renames `u1` to the `id_short` already owned by
`u2`. -/
def updShell : AssetAdministrationShell := sampleShell "u1" "B" .active []

/-- C6 counterexample.  A shell whose `id` IS present in the store is
still rejected by `update_aas` — store unchanged, negative result — when
its new `id_short` collides with a different row's UNIQUE `id_short`
column; the claim's unconditional "for every Shell whose id is present,
update overwrites" fails at this input. -/
theorem C6_counterexample :
    (stU.aas.any (fun r => r.id = updShell.id)) = true ∧
      update_aas stU 5 updShell = (false, stU) := by
  exact ⟨rfl, rfl⟩

/-- C6 as amended.  `update_aas` on an absent `id` fails with the store
unchanged; on a present `id` — provided the shell's `id_short` does not
collide with a different persisted row — it overwrites exactly the
matching row's indexed projection and payload, leaves every other row
and the submodel table untouched, and itself refreshes `last_modified`
to the current time both in the indexed column and inside the payload
(the payload decodes to the shell with `last_modified = now`, whatever
the caller had left there). -/
theorem C6_repository_update :
    ∀ (st : RepoState) (now : Nat) (a : AssetAdministrationShell),
      ((∀ r ∈ st.aas, r.id ≠ a.id) → update_aas st now a = (false, st)) ∧
      ((∃ r ∈ st.aas, r.id = a.id) →
        (∀ r ∈ st.aas, r.id ≠ a.id → r.id_short ≠ a.id_short) →
        update_aas st now a =
          (true, ⟨st.aas.map (fun r =>
            if r.id = a.id then updatedRowOf r a now else r),
            st.submodels⟩)) ∧
      (∀ (r : AasRow) (t : Nat),
        decodeShell t (updatedRowOf r a now).data =
          some { a with last_modified := now } ∧
        (updatedRowOf r a now).last_modified = isoformat now) := by
  intro st now a
  refine ⟨?_, ?_, ?_⟩
  · intro h
    have hall : (st.aas.all (fun r => decide (r.id ≠ a.id))) = true := by
      rw [List.all_eq_true]
      intro r hr
      simpa using h r hr
    unfold update_aas
    rw [if_pos hall]
  · intro hex hcol
    have hall : ¬ ((st.aas.all (fun r => decide (r.id ≠ a.id))) = true) := by
      rw [List.all_eq_true]
      intro hco
      obtain ⟨r, hr, hid⟩ := hex
      exact of_decide_eq_true (hco r hr) hid
    have hany : ¬ ((st.aas.any (fun r =>
        decide (r.id ≠ a.id) && decide (r.id_short = a.id_short))) = true) := by
      rw [List.any_eq_true]
      rintro ⟨r, hr, hb⟩
      simp only [Bool.and_eq_true, decide_eq_true_eq] at hb
      exact hcol r hr hb.1 hb.2
    unfold update_aas
    rw [if_neg hall, if_neg hany]
  · intro r t
    exact ⟨decodeShell_encodeShell t { a with last_modified := now }, rfl⟩

/-- C6 witness: the absent-id rejection and the successful in-place
update, each at the concrete two-row store. -/
theorem C6_repository_update_witness :
    update_aas stU 5 (sampleShell "u9" "Z" .active []) = (false, stU) ∧
      update_aas stU 7 (sampleShell "u1" "A" .offline []) =
        (true, ⟨[updatedRowOf (aasRowOf shellU1)
                   (sampleShell "u1" "A" .offline []) 7,
                 aasRowOf shellU2], []⟩) := by
  constructor
  · exact (C6_repository_update stU 5 (sampleShell "u9" "Z" .active [])).1
      (by decide)
  · have h := (C6_repository_update stU 7
      (sampleShell "u1" "A" .offline [])).2.1
      ⟨aasRowOf shellU1, by simp [stU], rfl⟩ (by decide)
    rw [h]
    rfl

/-! ## Timestamp monotonicity -/

/-- No mutation touches `created`. -/
theorem applyMutation_created (now : Nat) (a : AssetAdministrationShell)
    (m : ShellMutation) : (applyMutation now a m).created = a.created := by
  cases m <;> rfl

/-- Every mutation stamps `last_modified` with the clock value it ran
at. -/
theorem applyMutation_last_modified (now : Nat)
    (a : AssetAdministrationShell) (m : ShellMutation) :
    (applyMutation now a m).last_modified = now := by
  cases m <;> rfl

/-- Splitting a mutation sequence. -/
theorem applySteps_append (a : AssetAdministrationShell)
    (s1 s2 : List (Nat × ShellMutation)) :
    applySteps a (s1 ++ s2) = applySteps (applySteps a s1) s2 := by
  induction s1 generalizing a with
  | nil => rfl
  | cons p rest ih => exact ih (applyMutation p.1 a p.2)

/-- `created` is invariant across any mutation sequence. -/
theorem applySteps_created (a : AssetAdministrationShell)
    (steps : List (Nat × ShellMutation)) :
    (applySteps a steps).created = a.created := by
  induction steps generalizing a with
  | nil => rfl
  | cons p rest ih =>
      rw [applySteps, ih, applyMutation_created]

/-- Under a monotone clock, a mutation sequence never moves
`last_modified` backwards. -/
theorem applySteps_le (a : AssetAdministrationShell)
    (steps : List (Nat × ShellMutation))
    (h : ClockOK a.last_modified steps) :
    a.last_modified ≤ (applySteps a steps).last_modified := by
  induction steps generalizing a with
  | nil => exact le_refl _
  | cons p rest ih =>
      rw [ClockOK, List.map_cons, List.chain'_cons] at h
      obtain ⟨hle, hchain⟩ := h
      have hnext : ClockOK (applyMutation p.1 a p.2).last_modified rest := by
        rw [ClockOK, applyMutation_last_modified]
        exact hchain
      have hih := ih (applyMutation p.1 a p.2) hnext
      rw [applyMutation_last_modified] at hih
      exact le_trans hle hih

/-- A monotone clock for a whole sequence is still monotone for its tail
after running a prefix. -/
theorem ClockOK_drop (a : AssetAdministrationShell)
    (s1 s2 : List (Nat × ShellMutation))
    (h : ClockOK a.last_modified (s1 ++ s2)) :
    ClockOK (applySteps a s1).last_modified s2 := by
  induction s1 generalizing a with
  | nil => exact h
  | cons p rest ih =>
      rw [ClockOK, List.cons_append, List.map_cons, List.chain'_cons] at h
      exact ih (applyMutation p.1 a p.2)
        (by rw [ClockOK, applyMutation_last_modified]; exact h.2)

/-- Dict lookup after the element-value update: the updated slot carries
the new value and the mutation-time stamp. -/
theorem pyDictGet_update_map (l : List (String × SubmodelElement))
    (k : String) (v : AASValue) (t : Nat) :
    pyDictGet (l.map (fun p =>
        if p.1 = k then (p.1, { p.2 with value := v, last_updated := t })
        else p)) k =
      (pyDictGet l k).map
        (fun e => { e with value := v, last_updated := t }) := by
  induction l with
  | nil => rfl
  | cons p rest ih =>
      by_cases hk : p.1 = k
      · simp [pyDictGet, List.find?_cons, hk]
      · simp only [List.map_cons, if_neg hk]
        simp only [pyDictGet] at ih ⊢
        rw [List.find?_cons_of_neg, List.find?_cons_of_neg]
        · exact ih
        · simpa using hk
        · simpa using hk

/-- C7.  Monotonic timestamps: across any mutation sequence on one shell
(submodel attach, status change, repository refresh) under a monotone
clock, `created` is invariant, `last_modified` never decreases between
any prefix and the full sequence, and the final `last_modified` is at
least `created`; and `update_element_value` stamps the mutated element's
`last_updated` with the current time while no element's `last_updated`
ever decreases (given a clock not behind any stored stamp). -/
theorem C7_monotonic_timestamps :
    (∀ (a : AssetAdministrationShell) (s1 s2 : List (Nat × ShellMutation)),
      a.created ≤ a.last_modified →
      ClockOK a.last_modified (s1 ++ s2) →
      (applySteps a (s1 ++ s2)).created = a.created ∧
      (applySteps a s1).last_modified ≤
        (applySteps a (s1 ++ s2)).last_modified ∧
      (applySteps a (s1 ++ s2)).created ≤
        (applySteps a (s1 ++ s2)).last_modified) ∧
    (∀ (sm : Submodel) (k : String) (v : AASValue) (t : Nat),
      pyDictGet (update_element_value sm k v t).elements k =
        (pyDictGet sm.elements k).map
          (fun e => { e with value := v, last_updated := t })) ∧
    (∀ (sm : Submodel) (k : String) (v : AASValue) (t : Nat),
      (∀ p ∈ sm.elements, p.2.last_updated ≤ t) →
      List.Forall₂ (fun p q => p.2.last_updated ≤ q.2.last_updated)
        sm.elements (update_element_value sm k v t).elements) := by
  refine ⟨?_, ?_, ?_⟩
  · intro a s1 s2 hcl h
    have hcreated := applySteps_created a (s1 ++ s2)
    have hle1 := applySteps_le a (s1 ++ s2) h
    have hdrop := ClockOK_drop a s1 s2 h
    have hle2 := applySteps_le (applySteps a s1) s2 hdrop
    rw [← applySteps_append] at hle2
    exact ⟨hcreated, hle2, by rw [hcreated]; exact le_trans hcl hle1⟩
  · intro sm k v t
    unfold update_element_value
    by_cases hmem : (sm.elements.any (fun p => decide (p.1 = k))) = true
    · rw [if_pos hmem]
      exact pyDictGet_update_map sm.elements k v t
    · rw [if_neg hmem]
      have hnone : pyDictGet sm.elements k = none := by
        rw [pyDictGet, List.find?_eq_none.2, Option.map_none']
        intro p hp
        rw [List.any_eq_true] at hmem
        simpa using fun hk => hmem ⟨p, hp, by simpa using hk⟩
      rw [hnone]
      rfl
  · intro sm k v t h
    unfold update_element_value
    by_cases hmem : (sm.elements.any (fun p => decide (p.1 = k))) = true
    · rw [if_pos hmem]
      rw [List.forall₂_map_right_iff]
      rw [List.forall₂_same]
      intro p hp
      by_cases hk : p.1 = k
      · simpa [hk] using h p hp
      · simp [hk]
    · rw [if_neg hmem]
      rw [List.forall₂_same]
      intro p _
      exact le_refl _

/-- C7 witness: a concrete shell run through a two-step monotone clock,
and a concrete element-value update. -/
theorem C7_monotonic_timestamps_witness :
    ((applySteps (sampleShell "u1" "A" .active [])
        ([(1, .setStatus .maintenance)] ++ [(2, .repoRefresh)])).created =
        (sampleShell "u1" "A" .active []).created ∧
      (applySteps (sampleShell "u1" "A" .active [])
          [(1, .setStatus .maintenance)]).last_modified ≤
        (applySteps (sampleShell "u1" "A" .active [])
          ([(1, .setStatus .maintenance)] ++ [(2, .repoRefresh)])).last_modified ∧
      (applySteps (sampleShell "u1" "A" .active [])
          ([(1, .setStatus .maintenance)] ++ [(2, .repoRefresh)])).created ≤
        (applySteps (sampleShell "u1" "A" .active [])
          ([(1, .setStatus .maintenance)] ++ [(2, .repoRefresh)])).last_modified) ∧
      List.Forall₂ (fun p q => p.2.last_updated ≤ q.2.last_updated)
        (sampleSubmodel "m" "M" [("E", sampleElement "E" (.vInt 1))]).elements
        (update_element_value
          (sampleSubmodel "m" "M" [("E", sampleElement "E" (.vInt 1))])
          "E" (.vInt 5) 9).elements := by
  constructor
  · exact C7_monotonic_timestamps.1 (sampleShell "u1" "A" .active [])
      [(1, .setStatus .maintenance)] [(2, .repoRefresh)]
      (by decide)
      (by unfold ClockOK
          simp [sampleShell, List.chain'_cons, List.chain'_singleton])
  · exact C7_monotonic_timestamps.2.2
      (sampleSubmodel "m" "M" [("E", sampleElement "E" (.vInt 1))])
      "E" (.vInt 5) 9 (by decide)

/-! ## Detail lookup -/

/-- The shell whose `id` ends in R47 while its `id_short` does not. -/
def robotShell : AssetAdministrationShell :=
  sampleShell "urn:aas:robot:R47" "Robot_R47" .active []

/-- C8.  Detail lookup: `get_asset_details` returns the full nested
projection of some stored shell whose `id_short` equals the identity or
whose `id` ends with it, and returns nothing exactly when no stored
shell matches; concretely, "R47" matches the shell with id
`urn:aas:robot:R47` although its `id_short` differs, and "nonexistent"
finds nothing. -/
theorem C8_detail_lookup :
    (∀ (all_aas : List AssetAdministrationShell) (asset_id : String),
      get_asset_details all_aas asset_id = none ↔
        ∀ a ∈ all_aas, ¬(a.id_short = asset_id ∨
          List.isSuffixOf asset_id.data a.id.data = true)) ∧
    (∀ (all_aas : List AssetAdministrationShell) (asset_id : String)
        (d : AssetDetails),
      get_asset_details all_aas asset_id = some d →
      ∃ a ∈ all_aas, (a.id_short = asset_id ∨
        List.isSuffixOf asset_id.data a.id.data = true) ∧ d = detailsOf a) ∧
    (get_asset_details [robotShell] "R47" = some (detailsOf robotShell) ∧
      robotShell.id_short ≠ "R47") ∧
    get_asset_details [robotShell] "nonexistent" = none := by
  refine ⟨?_, ?_, ⟨rfl, by decide⟩, rfl⟩
  · intro all_aas asset_id
    rw [get_asset_details, Option.map_eq_none', List.find?_eq_none]
    constructor
    · intro h a ha
      have := h a ha
      simpa using this
    · intro h a ha
      simpa using h a ha
  · intro all_aas asset_id d h
    rw [get_asset_details, Option.map_eq_some'] at h
    obtain ⟨a, hfind, hd⟩ := h
    refine ⟨a, List.mem_of_find?_eq_some hfind, ?_, hd.symm⟩
    have := List.find?_some hfind
    simpa using this

/-- C8 witness: the iff's negative direction and the projection
existence, each at the concrete one-shell store. -/
theorem C8_detail_lookup_witness :
    get_asset_details [robotShell] "nonexistent" = none ∧
      ∃ a ∈ [robotShell], (a.id_short = "R47" ∨
        List.isSuffixOf ("R47" : String).data a.id.data = true) ∧
        detailsOf robotShell = detailsOf a :=
  ⟨(C8_detail_lookup.1 [robotShell] "nonexistent").2 (by decide),
   C8_detail_lookup.2.1 [robotShell] "R47" (detailsOf robotShell) rfl⟩

/-! ## Summary totality -/

/-- A row whose production raises poisons the whole summary. -/
theorem get_assets_summary_none (all_aas : List AssetAdministrationShell)
    (a : AssetAdministrationShell) (ha : a ∈ all_aas)
    (hrow : summaryRow a = none) : get_assets_summary all_aas = none := by
  induction all_aas with
  | nil => cases ha
  | cons b rest ih =>
      rcases List.mem_cons.1 ha with rfl | hmem
      · simp [get_assets_summary, hrow]
      · cases hb : summaryRow b with
        | none => simp [get_assets_summary, hb]
        | some r => simp [get_assets_summary, hb, ih hmem]

/-- A present service-date element with a non-string value makes the
shell's summary row raise. -/
theorem summaryRow_none_of_nonstring (a : AssetAdministrationShell)
    (sm : Submodel) (hsm : pyDictGet a.submodels "Maintenance" = some sm)
    (h : (∃ e, pyDictGet sm.elements "LastService" = some e ∧
            ∀ s, e.value ≠ .vStr s) ∨
         (∃ e, pyDictGet sm.elements "NextService" = some e ∧
            ∀ s, e.value ≠ .vStr s)) :
    summaryRow a = none := by
  unfold summaryRow maintDates
  rw [hsm]
  rcases h with ⟨e, he, hns⟩ | ⟨e, he, hns⟩
  · have hsl : pySlice10 e.value = none := by
      cases hv : e.value with
      | vStr s => exact absurd hv (hns s)
      | vInt n => rfl
      | vFloat q => rfl
      | vBool b => rfl
    simp [he, hsl]
  · have hsl : pySlice10 e.value = none := by
      cases hv : e.value with
      | vStr s => exact absurd hv (hns s)
      | vInt n => rfl
      | vFloat q => rfl
      | vBool b => rfl
    cases hls : pyDictGet sm.elements "LastService" with
    | none => simp [hls, he, hsl]
    | some e2 =>
        cases hsl2 : pySlice10 e2.value with
        | none => simp [hls, hsl2]
        | some s2 => simp [hls, hsl2, he, hsl]

/-- C9.  Summarize totality: whenever some stored shell's Maintenance
submodel holds a `LastService` or `NextService` element whose value is
not a string (int, float and bool are all valid element value kinds),
`get_assets_summary` raises (produces no data frame) instead of
returning rows, because the value is sliced with `[:10]`; the "N/A"
sentinel covers only absent submodels or absent elements. -/
theorem C9_summary_totality :
    (∀ (all_aas : List AssetAdministrationShell)
        (a : AssetAdministrationShell) (sm : Submodel), a ∈ all_aas →
      pyDictGet a.submodels "Maintenance" = some sm →
      ((∃ e, pyDictGet sm.elements "LastService" = some e ∧
          ∀ s, e.value ≠ .vStr s) ∨
       (∃ e, pyDictGet sm.elements "NextService" = some e ∧
          ∀ s, e.value ≠ .vStr s)) →
      get_assets_summary all_aas = none) ∧
    (∀ a, pyDictGet a.submodels "Maintenance" = none →
      (summaryRow a).map (fun r => (r.last_maintenance, r.next_service)) =
        some ("N/A", "N/A")) ∧
    (∀ a sm, pyDictGet a.submodels "Maintenance" = some sm →
      pyDictGet sm.elements "LastService" = none →
      pyDictGet sm.elements "NextService" = none →
      (summaryRow a).map (fun r => (r.last_maintenance, r.next_service)) =
        some ("N/A", "N/A")) := by
  refine ⟨?_, ?_, ?_⟩
  · intro all_aas a sm ha hsm h
    exact get_assets_summary_none all_aas a ha
      (summaryRow_none_of_nonstring a sm hsm h)
  · intro a h
    unfold summaryRow maintDates
    simp [h]
  · intro a sm hsm hls hns
    unfold summaryRow maintDates
    simp [hsm, hls, hns]

/-- A shell whose LastService value is an integer. -/
def badDateShell : AssetAdministrationShell :=
  sampleShell "urn:aas:B" "B" .active
    [("Maintenance", sampleSubmodel "urn:sm:b" "Maintenance"
      [("LastService", sampleElement "LastService" (.vInt 20240915))])]

/-- C9 witness: the store holding the integer-valued LastService shell
produces no summary, and the submodel-free shell keeps its sentinels. -/
theorem C9_summary_totality_witness :
    get_assets_summary [badDateShell] = none ∧
      (summaryRow errorShell).map
        (fun r => (r.last_maintenance, r.next_service)) =
        some ("N/A", "N/A") := by
  constructor
  · exact C9_summary_totality.1 [badDateShell] badDateShell
      (sampleSubmodel "urn:sm:b" "Maintenance"
        [("LastService", sampleElement "LastService" (.vInt 20240915))])
      (by simp) (by simp [badDateShell, sampleShell, pyDictGet])
      (Or.inl ⟨sampleElement "LastService" (.vInt 20240915),
        by simp [sampleSubmodel, sampleElement, pyDictGet],
        by intro s; simp [sampleElement]⟩)
  · exact C9_summary_totality.2.1 errorShell
      (by simp [errorShell, sampleShell, pyDictGet])

/-! ## Alert rules -/

/-- No ServiceHours element: no maintenance alert. -/
theorem maintAlerts_no_elem (a : AssetAdministrationShell)
    (h : elemValue a "Maintenance" "ServiceHours" = none) :
    maintAlerts a = some [] := by
  unfold maintAlerts
  rw [h]

/-- ServiceHours at or below 2000: no maintenance alert. -/
theorem maintAlerts_below (a : AssetAdministrationShell) (v : AASValue)
    (h : elemValue a "Maintenance" "ServiceHours" = some v)
    (h2 : pyGtNum v 2000 = some false) : maintAlerts a = some [] := by
  unfold maintAlerts
  rw [h]
  simp [h2]

/-- ServiceHours above 2000: exactly one maintenance alert, severity by
the 2500 threshold. -/
theorem maintAlerts_above (a : AssetAdministrationShell) (v : AASValue)
    (h : elemValue a "Maintenance" "ServiceHours" = some v)
    (h2 : pyGtNum v 2000 = some true) :
    (maintAlerts a).map (List.map alertKey) =
      some [(a.id_short, "maintenance",
        if pyGtNum v 2500 = some true then "high" else "medium")] := by
  unfold maintAlerts
  rw [h]
  simp [h2, alertKey]

/-- No Efficiency element: no performance alert. -/
theorem effAlerts_no_elem (a : AssetAdministrationShell)
    (h : elemValue a "Operation" "Efficiency" = none) :
    effAlerts a = some [] := by
  unfold effAlerts
  rw [h]

/-- Efficiency at or above 85: no performance alert. -/
theorem effAlerts_ok (a : AssetAdministrationShell) (v : AASValue) (q : ℚ)
    (h : elemValue a "Operation" "Efficiency" = some v)
    (hq : pyFloat v = some q) (h85 : ¬(q < 85)) : effAlerts a = some [] := by
  unfold effAlerts
  rw [h]
  simp [hq, h85]

/-- Efficiency below 85: exactly one medium performance alert. -/
theorem effAlerts_low (a : AssetAdministrationShell) (v : AASValue) (q : ℚ)
    (h : elemValue a "Operation" "Efficiency" = some v)
    (hq : pyFloat v = some q) (h85 : q < 85) :
    (effAlerts a).map (List.map alertKey) =
      some [(a.id_short, "performance", "medium")] := by
  unfold effAlerts
  rw [h]
  simp [hq, h85, alertKey]

/-- No Temperature element: no temperature alert. -/
theorem tempAlerts_no_elem (a : AssetAdministrationShell)
    (h : elemValue a "Operation" "Temperature" = none) :
    tempAlerts a = some [] := by
  unfold tempAlerts
  rw [h]

/-- Temperature at or below 60: no temperature alert. -/
theorem tempAlerts_ok (a : AssetAdministrationShell) (v : AASValue) (q : ℚ)
    (h : elemValue a "Operation" "Temperature" = some v)
    (hq : pyFloat v = some q) (h60 : ¬(q > 60)) :
    tempAlerts a = some [] := by
  unfold tempAlerts
  rw [h]
  simp [hq, h60]

/-- Temperature above 60: exactly one high temperature alert. -/
theorem tempAlerts_high (a : AssetAdministrationShell) (v : AASValue) (q : ℚ)
    (h : elemValue a "Operation" "Temperature" = some v)
    (hq : pyFloat v = some q) (h60 : q > 60) :
    (tempAlerts a).map (List.map alertKey) =
      some [(a.id_short, "temperature", "high")] := by
  unfold tempAlerts
  rw [h]
  simp [hq, h60, alertKey]

/-- The per-shell alert list concatenates the three rule groups in
order. -/
theorem shellAlerts_eq (a : AssetAdministrationShell) (m e t : List Alert)
    (hm : maintAlerts a = some m) (he : effAlerts a = some e)
    (ht : tempAlerts a = some t) : shellAlerts a = some (m ++ e ++ t) := by
  unfold shellAlerts
  rw [hm]
  simp [he, ht]

/-- The fleet scan concatenates per-shell groups in store order. -/
theorem get_maintenance_alerts_cons (a : AssetAdministrationShell)
    (rest : List AssetAdministrationShell) (la lr : List Alert)
    (h1 : shellAlerts a = some la)
    (h2 : get_maintenance_alerts rest = some lr) :
    get_maintenance_alerts (a :: rest) = some (la ++ lr) := by
  simp [get_maintenance_alerts, h1, h2]

/-- An active shell whose Maintenance submodel carries one ServiceHours
value. -/
def maintShell (n : ℤ) : AssetAdministrationShell :=
  sampleShell "urn:aas:M" "M" .active
    [("Maintenance", sampleSubmodel "urn:sm:m" "Maintenance"
      [("ServiceHours", sampleElement "ServiceHours" (.vInt n))])]

/-- An active shell whose Operation submodel carries one Temperature
value. -/
def tempShell (q : ℚ) : AssetAdministrationShell :=
  sampleShell "urn:aas:T" "T" .active
    [("Operation", sampleSubmodel "urn:sm:t" "Operation"
      [("Temperature", sampleElement "Temperature" (.vFloat q))])]

/-- A shell triggering all three alert rules at once. -/
def comboShell : AssetAdministrationShell :=
  sampleShell "urn:aas:C" "C" .active
    [("Maintenance", sampleSubmodel "urn:sm:cm" "Maintenance"
      [("ServiceHours", sampleElement "ServiceHours" (.vInt 2100))]),
     ("Operation", sampleSubmodel "urn:sm:co" "Operation"
      [("Efficiency", sampleElement "Efficiency" (.vFloat 80)),
       ("Temperature", sampleElement "Temperature" (.vFloat 65))])]

/-- C5.  Alert rules: per shell the scan emits (a) one maintenance alert
iff a Maintenance submodel has a ServiceHours element with value > 2000,
severity high iff the value > 2500 and medium otherwise, (b) one
medium-severity performance alert iff an Operation submodel has an
Efficiency element with value < 85, (c) one high-severity temperature
alert iff an Operation submodel has a Temperature element with
value > 60; triggered rules produce independent entries concatenated in
rule order per shell and store order across shells.  Concretely,
ServiceHours 2100 yields one medium maintenance alert, 2600 high, 1500
none; Efficiency 80 one medium performance alert, 94.5 none;
Temperature 65 one high temperature alert, 42.3 none; and a shell
triggering all three rules yields three independent entries. -/
theorem C5_alert_rules :
    (∀ a : AssetAdministrationShell,
      elemValue a "Maintenance" "ServiceHours" = none →
      maintAlerts a = some []) ∧
    (∀ (a : AssetAdministrationShell) (v : AASValue),
      elemValue a "Maintenance" "ServiceHours" = some v →
      pyGtNum v 2000 = some false → maintAlerts a = some []) ∧
    (∀ (a : AssetAdministrationShell) (v : AASValue),
      elemValue a "Maintenance" "ServiceHours" = some v →
      pyGtNum v 2000 = some true →
      (maintAlerts a).map (List.map alertKey) =
        some [(a.id_short, "maintenance",
          if pyGtNum v 2500 = some true then "high" else "medium")]) ∧
    (∀ a : AssetAdministrationShell,
      elemValue a "Operation" "Efficiency" = none → effAlerts a = some []) ∧
    (∀ (a : AssetAdministrationShell) (v : AASValue) (q : ℚ),
      elemValue a "Operation" "Efficiency" = some v →
      pyFloat v = some q → ¬(q < 85) → effAlerts a = some []) ∧
    (∀ (a : AssetAdministrationShell) (v : AASValue) (q : ℚ),
      elemValue a "Operation" "Efficiency" = some v →
      pyFloat v = some q → q < 85 →
      (effAlerts a).map (List.map alertKey) =
        some [(a.id_short, "performance", "medium")]) ∧
    (∀ a : AssetAdministrationShell,
      elemValue a "Operation" "Temperature" = none →
      tempAlerts a = some []) ∧
    (∀ (a : AssetAdministrationShell) (v : AASValue) (q : ℚ),
      elemValue a "Operation" "Temperature" = some v →
      pyFloat v = some q → ¬(q > 60) → tempAlerts a = some []) ∧
    (∀ (a : AssetAdministrationShell) (v : AASValue) (q : ℚ),
      elemValue a "Operation" "Temperature" = some v →
      pyFloat v = some q → q > 60 →
      (tempAlerts a).map (List.map alertKey) =
        some [(a.id_short, "temperature", "high")]) ∧
    (∀ (a : AssetAdministrationShell) (m e t : List Alert),
      maintAlerts a = some m → effAlerts a = some e →
      tempAlerts a = some t → shellAlerts a = some (m ++ e ++ t)) ∧
    (∀ (a : AssetAdministrationShell)
        (rest : List AssetAdministrationShell) (la lr : List Alert),
      shellAlerts a = some la → get_maintenance_alerts rest = some lr →
      get_maintenance_alerts (a :: rest) = some (la ++ lr)) ∧
    (get_maintenance_alerts [maintShell 2100]).map (List.map alertKey) =
      some [("M", "maintenance", "medium")] ∧
    (get_maintenance_alerts [maintShell 2600]).map (List.map alertKey) =
      some [("M", "maintenance", "high")] ∧
    get_maintenance_alerts [maintShell 1500] = some [] ∧
    (get_maintenance_alerts [effShell "A" 80]).map (List.map alertKey) =
      some [("A", "performance", "medium")] ∧
    get_maintenance_alerts [effShell "A" (189/2)] = some [] ∧
    (get_maintenance_alerts [tempShell 65]).map (List.map alertKey) =
      some [("T", "temperature", "high")] ∧
    get_maintenance_alerts [tempShell (423/10)] = some [] ∧
    (get_maintenance_alerts [comboShell]).map (List.map alertKey) =
      some [("C", "maintenance", "medium"),
        ("C", "performance", "medium"), ("C", "temperature", "high")] := by
  refine ⟨maintAlerts_no_elem, maintAlerts_below, maintAlerts_above,
    effAlerts_no_elem, effAlerts_ok, effAlerts_low, tempAlerts_no_elem,
    tempAlerts_ok, tempAlerts_high, shellAlerts_eq,
    get_maintenance_alerts_cons, ?_, ?_, ?_, ?_, ?_, ?_, ?_, ?_⟩
  · have hgt : ((2000:ℚ) < 2100) := by norm_num
    have hlt : ¬((2500:ℚ) < 2100) := by norm_num
    simp [get_maintenance_alerts, shellAlerts, maintAlerts, effAlerts,
      tempAlerts, maintShell, sampleShell, sampleSubmodel, sampleElement,
      elemValue, pyDictGet, pyFloat, pyGtNum, alertKey, hgt, hlt]
  · have hgt : ((2000:ℚ) < 2600) := by norm_num
    have hgt2 : ((2500:ℚ) < 2600) := by norm_num
    simp [get_maintenance_alerts, shellAlerts, maintAlerts, effAlerts,
      tempAlerts, maintShell, sampleShell, sampleSubmodel, sampleElement,
      elemValue, pyDictGet, pyFloat, pyGtNum, alertKey, hgt, hgt2]
  · have hlt : ¬((2000:ℚ) < 1500) := by norm_num
    simp [get_maintenance_alerts, shellAlerts, maintAlerts, effAlerts,
      tempAlerts, maintShell, sampleShell, sampleSubmodel, sampleElement,
      elemValue, pyDictGet, pyFloat, pyGtNum, alertKey, hlt]
  · have h85 : ((80:ℚ) < 85) := by norm_num
    simp [get_maintenance_alerts, shellAlerts, maintAlerts, effAlerts,
      tempAlerts, effShell, sampleShell, sampleSubmodel, sampleElement,
      elemValue, pyDictGet, pyFloat, pyGtNum, alertKey, h85]
  · have h85 : ¬((189:ℚ)/2 < 85) := by norm_num
    simp [get_maintenance_alerts, shellAlerts, maintAlerts, effAlerts,
      tempAlerts, effShell, sampleShell, sampleSubmodel, sampleElement,
      elemValue, pyDictGet, pyFloat, pyGtNum, alertKey, h85]
  · have h60 : ((60:ℚ) < 65) := by norm_num
    simp [get_maintenance_alerts, shellAlerts, maintAlerts, effAlerts,
      tempAlerts, tempShell, sampleShell, sampleSubmodel, sampleElement,
      elemValue, pyDictGet, pyFloat, pyGtNum, alertKey, h60]
  · have h60 : ¬((423:ℚ)/10 > 60) := by norm_num
    simp [get_maintenance_alerts, shellAlerts, maintAlerts, effAlerts,
      tempAlerts, tempShell, sampleShell, sampleSubmodel, sampleElement,
      elemValue, pyDictGet, pyFloat, pyGtNum, alertKey, h60]
  · have hgt : ((2000:ℚ) < 2100) := by norm_num
    have hlt : ¬((2500:ℚ) < 2100) := by norm_num
    have h85 : ((80:ℚ) < 85) := by norm_num
    have h60 : ((60:ℚ) < 65) := by norm_num
    simp [get_maintenance_alerts, shellAlerts, maintAlerts, effAlerts,
      tempAlerts, comboShell, sampleShell, sampleSubmodel, sampleElement,
      elemValue, pyDictGet, pyFloat, pyGtNum, alertKey, hgt, hlt, h85, h60]

/-- C5 witness: the rule characterizations applied to concrete shells
with no triggering elements and to the 2100-hour shell. -/
theorem C5_alert_rules_witness :
    maintAlerts errorShell = some [] ∧
      effAlerts errorShell = some [] ∧
      shellAlerts errorShell = some ([] ++ [] ++ []) := by
  have hm : elemValue errorShell "Maintenance" "ServiceHours" = none := by
    simp [errorShell, sampleShell, elemValue, pyDictGet]
  have he : elemValue errorShell "Operation" "Efficiency" = none := by
    simp [errorShell, sampleShell, elemValue, pyDictGet]
  have ht : elemValue errorShell "Operation" "Temperature" = none := by
    simp [errorShell, sampleShell, elemValue, pyDictGet]
  have h1 := C5_alert_rules.1 errorShell hm
  have h2 := C5_alert_rules.2.2.2.1 errorShell he
  have h3 := C5_alert_rules.2.2.2.2.2.2.1 errorShell ht
  exact ⟨h1, h2,
    C5_alert_rules.2.2.2.2.2.2.2.2.2.1 errorShell [] [] [] h1 h2 h3⟩
